import Mathlib

/-!
Verification development for the ioSync MCU device module
(`psychopy/iohub/devices/mcu/iosync/__init__.py`).

The module drives a microcontroller I/O peripheral over a serial link.
This file gives a shallow embedding of the `MCU` device class: its
request/response dictionaries, its poll tick (`_poll`), its connection
management (`setConnectionState`, `resetState`, `_close`) and its
response retrieval (`getRequestResponse`), together with theorems about
the claims of the specification.

Host times are modelled as integers (the code uses floating-point
seconds; none of the verified properties depends on fractional values,
only on addition, subtraction and comparison of times).

The serial-link collaborator (`T3MC` / `pysync.py`) is not part of the
source under verification; it is modelled from the specification's
interface description (section 6 of the spec), with each such definition
marked `Modelled from the spec:`.
-/

/-- Host-clock times and durations (the code's float seconds, idealised). -/
abbrev Time := Int

/-- One slot of the fixed-length host event list that `_poll` builds
(`elist`).  `undef` is the `EventConstants.UNDEFINED` filler the list is
initialised with; `num v` is any concrete numeric entry (ids, times,
payload values).  Modelled from the spec: the explicit "undefined"
sentinel is kept distinct from every ordinary numeric value. -/
inductive Cell where
  | undef : Cell
  | num : Int → Cell
deriving DecidableEq

/-- The kind of an outstanding request stored in `self._request_dict`.
Only the kinds exercised by the claims are listed; all request wrappers
in the source store the request object identically. -/
inductive ReqKind where
  | timeReq : ReqKind
  | resetReq : ReqKind
deriving DecidableEq

/-- A reply object delivered by the link (`reply.getID()` plus opaque
reply data).  Modelled from the spec: `pollReplies() ->
sequence<(RequestId, payload)>`. -/
structure Reply where
  id : Nat
  data : Int
deriving DecidableEq

/-!
Constants of the native event type tags (`T3Event.ANALOG_INPUT_EVENT`
and friends).  Modelled from the spec: the tagged union over
DigitalInput / AnalogInput / Threshold; only distinctness of the tags is
used, the numeric values are immaterial.
-/
namespace T3Event

def DIGITAL_INPUT_EVENT : Nat := 1

def ANALOG_INPUT_EVENT : Nat := 2

def THRESHOLD_EVENT : Nat := 3

end T3Event

/-!
Host-side event type ids (`DigitalInputEvent.EVENT_TYPE_ID` etc.,
ultimately `EventConstants.DIGITAL_INPUT` and friends).  Modelled from
the spec: distinct type tags; numeric values immaterial.
-/
namespace EventConstants

def DIGITAL_INPUT : Int := 101

def ANALOG_INPUT : Int := 102

def THRESHOLD : Int := 103

end EventConstants

/-- A device-native event as delivered by the link's `getRxEvents()`.
Modelled from the spec: carries a type tag, the raw 48-bit device
timestamp, an optional host-time stamp assigned by the link layer at
observation, and the variant payloads (`ain_channels`, the digital input
byte, `threshold_state_changed`). -/
structure NativeEvent where
  typeInt : Nat
  device_time : Int
  local_time : Option Time
  ain_channels : List Int
  din_byte : Int
  threshold_state_changed : List Int
deriving DecidableEq

/-- Errors a poll-tick step can raise.  `attrError` is Python's
`AttributeError` from calling a method on `self._mcu` when it is `None`;
`linkError` is a transport failure inside a link call (the spec's
`LinkError`).  Both are subclasses of Python `Exception`. -/
inductive PyErr where
  | attrError : PyErr
  | linkError : PyErr
deriving DecidableEq

/-- State of the `T3MC` link collaborator.  Modelled from the spec:
buffered native events and replies (destructive reads), the request-id
authority (`nextId`), a transport-fault flag that makes link I/O raise
`LinkError`, and counters making the drain and resync side effects
observable. -/
structure LinkState where
  serialFault : Bool
  nextId : Nat
  rxEvents : List NativeEvent
  rxReplies : List Reply
  drainCount : Nat
  syncCount : Nat
deriving DecidableEq

namespace LinkState

/-- Modelled from the spec: `drainIO()` — the `getSerialRx()` raw link
drain; raises on transport fault, otherwise counts one drain. -/
def getSerialRx (l : LinkState) : Except PyErr LinkState :=
  if l.serialFault then .error .linkError
  else .ok { l with drainCount := l.drainCount + 1 }

/-- Modelled from the spec: the Cristian round-trip exchange
(`_runTimeSync()`); raises on transport fault, otherwise counts one
completed sync round. -/
def runTimeSync (l : LinkState) : Except PyErr LinkState :=
  if l.serialFault then .error .linkError
  else .ok { l with syncCount := l.syncCount + 1 }

/-- Modelled from the spec: `pollNativeEvents()` (`getRxEvents()`) — a
destructive read of the buffered native events. -/
def getRxEvents (l : LinkState) : Except PyErr (List NativeEvent × LinkState) :=
  if l.serialFault then .error .linkError
  else .ok (l.rxEvents, { l with rxEvents := [] })

/-- Modelled from the spec: `pollReplies()` (`getRequestReplies(True)`)
— a destructive read of the buffered replies. -/
def getRequestReplies (l : LinkState) : Except PyErr (List Reply × LinkState) :=
  if l.serialFault then .error .linkError
  else .ok (l.rxReplies, { l with rxReplies := [] })

/-- Modelled from the spec: the link is the request-id authority
(`sendTimeRequest()` / `sendCommand()` return a fresh `RequestId`).
Modelled as a counter; the spec places no constraint on the id values
beyond uniqueness among outstanding requests. -/
def newRequest (l : LinkState) : Except PyErr (Nat × LinkState) :=
  if l.serialFault then .error .linkError
  else .ok (l.nextId, { l with nextId := l.nextId + 1 })

end LinkState

/-- A fresh link, as built by `T3MC(serial_port)` on connect.  Modelled
from the spec: `open(port) -> LinkHandle`. -/
def T3MC.init : LinkState :=
  { serialFault := false, nextId := 0, rxEvents := [], rxReplies := [],
    drainCount := 0, syncCount := 0 }

/-- Python-dict lookup (`d.get(k)`) on an insertion-ordered association
list with unique keys. -/
def dlookup (k : Nat) : List (Nat × α) → Option α
  | [] => none
  | (k', v) :: rest => if k' = k then some v else dlookup k rest

/-- Python-dict store (`d[k] = v`): replace in place if the key is
present, else append in insertion order. -/
def dinsert (k : Nat) (v : α) : List (Nat × α) → List (Nat × α)
  | [] => [(k, v)]
  | (k', v') :: rest =>
      if k' = k then (k, v) :: rest else (k', v') :: dinsert k v rest

/-- Python-dict delete (`del d[k]`). -/
def derase (k : Nat) : List (Nat × α) → List (Nat × α)
  | [] => []
  | (k', v') :: rest => if k' = k then rest else (k', v') :: derase k rest

/-- The state of one `MCU` device instance: the link handle
(`self._mcu`, `none` = disconnected), the pending-request and
resolved-response dictionaries, the clock-sync bookkeeping, the
event-reporting flag and `_last_callback_time` (both kept by the `Device`
base class), the framework's event-id counter
(`Device._getNextEventID()`), the framework's output event buffer
(`_addNativeEventToBuffer`), and the configured serial port. -/
structure MCUState where
  mcu : Option LinkState
  request_dict : List (Nat × ReqKind)
  response_dict : List (Nat × Reply)
  last_sync_time : Time
  time_sync_interval : Time
  reporting : Bool
  last_callback_time : Time
  nextEventId : Nat
  buffer : List (List Cell)
  serial_port : Option Nat
deriving DecidableEq

/-- `MCU.isConnected`: `self._mcu is not None`. -/
def MCUState.isConnected (st : MCUState) : Bool :=
  st.mcu.isSome

/-- Timing context shared by every event translated in one poll tick:
`logged_time` sampled at tick start, and the tick's
`confidence_interval = logged_time - self._last_callback_time`. -/
structure TransCtx where
  logged_time : Time
  confidence_interval : Time
deriving DecidableEq

/-- The translation loop `for i, v in enumerate(values): elist[i + start] = v`
used for the analog channels and the threshold flags. -/
def fillFrom (l : List Cell) (start : Nat) : List Int → List Cell
  | [] => l
  | v :: vs => fillFrom (l.set start (Cell.num v)) (start + 1) vs

/-- One iteration of the event-translation loop of `MCU._poll` (lines
281-318 of the source), minus the buffer append: builds the `elist` for
the given native event, or `none` when the event's type tag is not one
of the three recognised tags (`elist` stays `None` and the event is
dropped).  `eid` is the value `Device._getNextEventID()` returns for
this event. -/
def translateEvent (tc : TransCtx) (eid : Nat) (e : NativeEvent) : Option (List Cell) :=
  let host := e.local_time.getD tc.logged_time
  let delay := tc.logged_time - host
  let variant : Option (List Cell) :=
    if e.typeInt = T3Event.ANALOG_INPUT_EVENT then
      some (fillFrom ((List.replicate 19 Cell.undef).set 4
        (Cell.num EventConstants.ANALOG_INPUT)) 11 e.ain_channels)
    else if e.typeInt = T3Event.DIGITAL_INPUT_EVENT then
      some (((List.replicate 12 Cell.undef).set 4
        (Cell.num EventConstants.DIGITAL_INPUT)).set 11 (Cell.num e.din_byte))
    else if e.typeInt = T3Event.THRESHOLD_EVENT then
      some (fillFrom ((List.replicate 19 Cell.undef).set 4
        (Cell.num EventConstants.THRESHOLD)) 11 e.threshold_state_changed)
    else none
  variant.map fun l =>
    ((((((((((l.set 0 (Cell.num 0)).set 1 (Cell.num 0)).set 2
      (Cell.num 0)).set 3 (Cell.num eid)).set 5 (Cell.num e.device_time)).set 6
      (Cell.num tc.logged_time)).set 7 (Cell.num host)).set 8
      (Cell.num tc.confidence_interval)).set 9 (Cell.num delay)).set 10
      (Cell.num 0))

/-- Whether a native event's type tag is one of the three recognised
tags (an unrecognised event leaves `elist = None` and is dropped). -/
def recognized (e : NativeEvent) : Bool :=
  e.typeInt = T3Event.ANALOG_INPUT_EVENT ||
  e.typeInt = T3Event.DIGITAL_INPUT_EVENT ||
  e.typeInt = T3Event.THRESHOLD_EVENT

/-- Number of recognised events in a batch — how many times the
translation loop calls `Device._getNextEventID()`. -/
def countRecog (l : List NativeEvent) : Nat :=
  (l.filter recognized).length

/-- The whole event-translation loop of `MCU._poll`: translates the
batch in order, threading the framework's event-id counter, skipping
unrecognised events. -/
def translateAll (tc : TransCtx) (eid : Nat) : List NativeEvent → List (List Cell)
  | [] => []
  | e :: rest =>
      match translateEvent tc eid e with
      | some r => r :: translateAll tc (eid + 1) rest
      | none => translateAll tc eid rest

/-- The reply-reconciliation loop of `MCU._poll` (lines 320-325): for
each drained reply, if its id matches a pending request, store the reply
in `self._response_dict` and delete the pending entry; otherwise the
reply is discarded. -/
def reconcile (rq : List (Nat × ReqKind)) (rs : List (Nat × Reply)) :
    List Reply → List (Nat × ReqKind) × List (Nat × Reply)
  | [] => (rq, rs)
  | reply :: rest =>
      if (dlookup reply.id rq).isSome then
        reconcile (derase reply.id rq) (dinsert reply.id reply rs) rest
      else
        reconcile rq rs rest

/-- The body of `MCU._poll`'s `try:` block.  Mirrors the source line by
line: sample `logged_time` (passed in as `t`); if connected, drain the
serial link and resync when the sync interval has elapsed; early-return
`False` when event reporting is off; compute the tick's confidence
interval; drain and translate the native events, appending to the
framework buffer; drain and reconcile the replies; record
`_last_callback_time` and return `True`.  When disconnected with
reporting on, the call `self._mcu.getRxEvents()` on `None` raises
`AttributeError`.  In this model every raise happens before the raising
step mutates the device state. -/
def pollBody (st : MCUState) (t : Time) : Except PyErr (Bool × MCUState) :=
  let step1 : Except PyErr MCUState :=
    match st.mcu with
    | some link =>
        match link.getSerialRx with
        | .error e => .error e
        | .ok link1 =>
            if t - st.last_sync_time ≥ st.time_sync_interval then
              match link1.runTimeSync with
              | .error e => .error e
              | .ok link2 => .ok { st with mcu := some link2, last_sync_time := t }
            else .ok { st with mcu := some link1 }
    | none => .ok st
  match step1 with
  | .error e => .error e
  | .ok st1 =>
      if st1.reporting = false then .ok (false, st1)
      else
        let ci := t - st1.last_callback_time
        match st1.mcu with
        | none => .error .attrError
        | some link =>
            match link.getRxEvents with
            | .error e => .error e
            | .ok (events, link1) =>
                let tc : TransCtx := { logged_time := t, confidence_interval := ci }
                let st2 := { st1 with
                  mcu := some link1
                  buffer := st1.buffer ++ translateAll tc st1.nextEventId events
                  nextEventId := st1.nextEventId + countRecog events }
                match link1.getRequestReplies with
                | .error e => .error e
                | .ok (replies, link2) =>
                    let rqrs := reconcile st2.request_dict st2.response_dict replies
                    .ok (true, { st2 with
                      mcu := some link2
                      request_dict := rqrs.1
                      response_dict := rqrs.2
                      last_callback_time := t })

/-- What one call of `MCU._poll` returns: `success b` for a normal
return of the Python bool `b` (`True` after a full tick, `False` from
the reporting-disabled early return), `failure` for the `except
Exception` handler's implicit `return None`, and `propagated e` for an
exception that escapes `_poll` (possible only for a raise that is not a
Python `Exception`). -/
inductive PollResult where
  | success : Bool → PollResult
  | failure : PollResult
  | propagated : PyErr → PollResult
deriving DecidableEq

/-- Whether a raised error is a Python `Exception` and hence caught by
`except Exception as e:`.  Every error this model can raise
(`AttributeError`, the link's transport errors) subclasses `Exception`. -/
def isCaughtException (e : PyErr) : Bool :=
  match e with
  | .attrError => true
  | .linkError => true

/-- `MCU._poll` (lines 265-333): the `try:` body wrapped in the
`except Exception` handler, which logs the error and falls off the end
of the function (Python returns `None` — modelled as
`PollResult.failure`).  In this model every raise occurs before any
mutation of the device state, so the handler leaves the pre-tick state. -/
def pollTick (st : MCUState) (t : Time) : PollResult × MCUState :=
  match pollBody st t with
  | .ok (b, st') => (.success b, st')
  | .error e =>
      if isCaughtException e then (.failure, st) else (.propagated e, st)

namespace MCU

/-- `MCU.requestTime` (lines 193-196): ask the link for a time request
(`self._mcu.requestTime()` — raises `AttributeError` when `self._mcu`
is `None`), record it in `self._request_dict` keyed by the id the link
assigned, and return the request (modelled by its id, the observable
part of `request.asdict()` that the claims use).  The other request
wrappers (`getDigitalInputs`, `setDigitalOutputByte`, ...) store their
request identically. -/
def requestTime (st : MCUState) : Except (PyErr × MCUState) (Nat × MCUState) :=
  match st.mcu with
  | none => .error (.attrError, st)
  | some link =>
      match link.newRequest with
      | .error e => .error (e, st)
      | .ok (rid, link') =>
          .ok (rid, { st with
            mcu := some link'
            request_dict := dinsert rid ReqKind.timeReq st.request_dict })

/-- What `MCU.getRequestResponse` returns: a single response's
`asdict()` (`one`), Python `None` when a truthy id has no resolved
response (`nothing`), or the list of all resolved responses on the bulk
path (`many`). -/
inductive FetchResult where
  | one : Reply → FetchResult
  | nothing : FetchResult
  | many : List Reply → FetchResult
deriving DecidableEq

/-- `MCU.getRequestResponse` (lines 243-255).  `if rid:` — a truthy
`rid` (not `None` and not the integer `0`) takes the single-response
path: pop and return the response when present (`response` objects are
always truthy), else fall through returning `None`.  A falsy `rid`
takes the bulk path: return every resolved response and clear the
store. -/
def getRequestResponse (st : MCUState) (rid : Option Nat) :
    FetchResult × MCUState :=
  match rid with
  | some n =>
      if n ≠ 0 then
        match dlookup n st.response_dict with
        | some resp =>
            (.one resp, { st with response_dict := derase n st.response_dict })
        | none => (.nothing, st)
      else
        (.many (st.response_dict.map Prod.snd),
          { st with response_dict := [] })
  | none =>
      (.many (st.response_dict.map Prod.snd),
        { st with response_dict := [] })

/-- `MCU._resetLocalState` (lines 230-235): clear both dictionaries,
zero `_last_sync_time`, run a time sync over the link (which can raise),
then stamp `_last_sync_time` with the current host time (`now`).  On a
raise the partially mutated state (dictionaries already cleared) is
carried with the error, as in Python. -/
def resetLocalState (st : MCUState) (now : Time) :
    Except (PyErr × MCUState) MCUState :=
  let st1 := { st with
    request_dict := ([] : List (Nat × ReqKind))
    response_dict := ([] : List (Nat × Reply))
    last_sync_time := (0 : Time) }
  match st1.mcu with
  | none => .error (.attrError, st1)
  | some link =>
      match link.runTimeSync with
      | .error e => .error (e, st1)
      | .ok link' =>
          .ok { st1 with mcu := some link', last_sync_time := now }

/-- `MCU.setConnectionState` (lines 120-132).  `enable = true`: if not
yet connected and a serial port is configured, open a fresh link and run
`_resetLocalState`.  `enable = false`: if connected, send the link-level
reset request (`self._mcu.resetState()`), close the link and drop the
handle — the request/response dictionaries are not touched on this
path.  Returns `self.isConnected()`. -/
def setConnectionState (st : MCUState) (enable : Bool) (now : Time) :
    Except (PyErr × MCUState) (Bool × MCUState) :=
  if enable then
    match st.mcu, st.serial_port with
    | none, some _ =>
        match resetLocalState { st with mcu := some T3MC.init } now with
        | .error e => .error e
        | .ok st' => .ok (st'.isConnected, st')
    | _, _ => .ok (st.isConnected, st)
  else
    match st.mcu with
    | some link =>
        match link.newRequest with
        | .error e => .error (e, st)
        | .ok (_, _) => .ok (false, { st with mcu := none })
    | none => .ok (false, st)

/-- `MCU.resetState` (lines 237-241): send the reset request over the
link (`self._mcu.resetState()` — the link assigns it an id), run
`_resetLocalState` (clearing both dictionaries), then record the just
issued reset request in `self._request_dict`, and return it. -/
def resetState (st : MCUState) (now : Time) :
    Except (PyErr × MCUState) (Nat × MCUState) :=
  match st.mcu with
  | none => .error (.attrError, st)
  | some link =>
      match link.newRequest with
      | .error e => .error (e, st)
      | .ok (rid, link') =>
          match resetLocalState { st with mcu := some link' } now with
          | .error e => .error e
          | .ok st' =>
              .ok (rid, { st' with
                request_dict := dinsert rid ReqKind.resetReq st'.request_dict })

/-- `MCU._close` (lines 335-340): when connected, `resetState()` then
`setConnectionState(False)`; `Device._close` (framework) does not touch
the modelled state. -/
def closeDevice (st : MCUState) (now : Time) :
    Except (PyErr × MCUState) MCUState :=
  match st.mcu with
  | none => .ok st
  | some _ =>
      match resetState st now with
      | .error e => .error e
      | .ok (_, st') =>
          match setConnectionState st' false now with
          | .error e => .error e
          | .ok (_, st'') => .ok st''

end MCU

/-- Derived description (proved below, not assumed): the link after the
connected prefix of a poll tick — one serial drain, plus one sync round
when the sync interval has elapsed. -/
def drainedLink (st : MCUState) (t : Time) (link : LinkState) : LinkState :=
  if t - st.last_sync_time ≥ st.time_sync_interval then
    { link with drainCount := link.drainCount + 1, syncCount := link.syncCount + 1 }
  else
    { link with drainCount := link.drainCount + 1 }

/-- Derived description (proved below, not assumed): the device state
after the connected prefix of a poll tick (serial drain plus scheduled
resync), which is the whole outcome of an idle (reporting-disabled)
tick. -/
def drainOutcome (st : MCUState) (t : Time) (link : LinkState) : MCUState :=
  if t - st.last_sync_time ≥ st.time_sync_interval then
    { st with mcu := some (drainedLink st t link), last_sync_time := t }
  else
    { st with mcu := some (drainedLink st t link) }

/-- Derived description (proved below, not assumed): the device state
after a full connected, reporting, fault-free poll tick. -/
def pollOutcome (st : MCUState) (t : Time) (link : LinkState) : MCUState :=
  let tc : TransCtx := { logged_time := t, confidence_interval := t - st.last_callback_time }
  let rqrs := reconcile st.request_dict st.response_dict link.rxReplies
  { drainOutcome st t link with
    mcu := some { drainedLink st t link with rxEvents := [], rxReplies := [] }
    buffer := st.buffer ++ translateAll tc st.nextEventId link.rxEvents
    nextEventId := st.nextEventId + countRecog link.rxEvents
    request_dict := rqrs.1
    response_dict := rqrs.2
    last_callback_time := t }

/-!
Concrete device states used by the counterexamples and witnesses below.
Each group of states belongs to one claim.
-/

/-- C1: a healthy connected link. -/
def linkC1 : LinkState :=
  { serialFault := false, nextId := 9, rxEvents := [], rxReplies := [],
    drainCount := 0, syncCount := 0 }

/-- C1: a resolved response sitting in the store before the disconnect. -/
def replyC1 : Reply := { id := 7, data := 42 }

/-- C1: a connected session with one pending request (id 5) and one
resolved response (id 7). -/
def stC1 : MCUState :=
  { mcu := some linkC1, request_dict := [(5, ReqKind.timeReq)],
    response_dict := [(7, replyC1)], last_sync_time := 0,
    time_sync_interval := 100, reporting := true, last_callback_time := 0,
    nextEventId := 0, buffer := [], serial_port := some 1 }

/-- C1: a second connected session for the witness of the amended claim. -/
def stC1w : MCUState :=
  { mcu := some linkC1, request_dict := [(5, ReqKind.timeReq)],
    response_dict := [(7, replyC1)], last_sync_time := 0,
    time_sync_interval := 100, reporting := false, last_callback_time := 0,
    nextEventId := 0, buffer := [], serial_port := some 1 }

/-- C2: a disconnected session with event reporting still enabled — the
state in which the poll body raises `AttributeError`. -/
def stC2 : MCUState :=
  { mcu := none, request_dict := [], response_dict := [],
    last_sync_time := 0, time_sync_interval := 100, reporting := true,
    last_callback_time := 0, nextEventId := 0, buffer := [],
    serial_port := none }

/-- C3: a link whose next request id is `0` and whose reply buffer
already holds replies for ids `0` and `5`. -/
def linkC3 : LinkState :=
  { serialFault := false, nextId := 0, rxEvents := [],
    rxReplies := [{ id := 0, data := 11 }, { id := 5, data := 12 }],
    drainCount := 0, syncCount := 0 }

/-- C3: a connected session with one pending request (id 5), about to
submit a command that the link will give id `0`. -/
def stC3 : MCUState :=
  { mcu := some linkC3, request_dict := [(5, ReqKind.timeReq)],
    response_dict := [], last_sync_time := 0, time_sync_interval := 100,
    reporting := true, last_callback_time := 0, nextEventId := 0,
    buffer := [], serial_port := some 1 }

/-- C3: `stC3` right after `requestTime` returned id `0`. -/
def stC3b : MCUState :=
  { stC3 with
    mcu := some { linkC3 with nextId := 1 }
    request_dict := [(5, ReqKind.timeReq), (0, ReqKind.timeReq)] }

/-- C3: `stC3b` after the poll tick at `t = 2` reconciled both replies. -/
def stC3c : MCUState :=
  { stC3 with
    mcu := some { serialFault := false, nextId := 1, rxEvents := [],
                  rxReplies := [], drainCount := 1, syncCount := 0 }
    request_dict := []
    response_dict := [(0, { id := 0, data := 11 }), (5, { id := 5, data := 12 })]
    last_callback_time := 2 }

/-- C3: a link with a nonzero next request id, for the witness of the
amended claim. -/
def linkC3w : LinkState :=
  { serialFault := false, nextId := 3, rxEvents := [], rxReplies := [],
    drainCount := 0, syncCount := 0 }

/-- C3: a connected session for the witness of the amended claim. -/
def stC3w : MCUState :=
  { mcu := some linkC3w, request_dict := [], response_dict := [],
    last_sync_time := 0, time_sync_interval := 100, reporting := true,
    last_callback_time := 0, nextEventId := 0, buffer := [],
    serial_port := some 1 }

/-- C4: a recognised digital native event. -/
def evC4a : NativeEvent :=
  { typeInt := T3Event.DIGITAL_INPUT_EVENT, device_time := 500,
    local_time := some 2, ain_channels := [], din_byte := 6,
    threshold_state_changed := [] }

/-- C4: a recognised analog native event arriving after `evC4a`. -/
def evC4b : NativeEvent :=
  { typeInt := T3Event.ANALOG_INPUT_EVENT, device_time := 600,
    local_time := none, ain_channels := [1, 2, 3, 4, 5, 6, 7, 8],
    din_byte := 0, threshold_state_changed := [] }

/-- C4: a link that buffered `[evC4a, evC4b]` in that order. -/
def linkC4 : LinkState :=
  { serialFault := false, nextId := 0, rxEvents := [evC4a, evC4b],
    rxReplies := [], drainCount := 0, syncCount := 0 }

/-- C4: a connected reporting session about to poll `[evC4a, evC4b]`. -/
def stC4w : MCUState :=
  { mcu := some linkC4, request_dict := [], response_dict := [],
    last_sync_time := 0, time_sync_interval := 100, reporting := true,
    last_callback_time := 1, nextEventId := 0, buffer := [],
    serial_port := some 1 }

/-- C5: a disconnected session with event reporting enabled. -/
def stC5 : MCUState :=
  { mcu := none, request_dict := [(4, ReqKind.timeReq)],
    response_dict := [], last_sync_time := 0, time_sync_interval := 100,
    reporting := true, last_callback_time := 0, nextEventId := 0,
    buffer := [], serial_port := none }

/-- C5: a disconnected session with event reporting disabled, for the
witness of the amended claim. -/
def stC5w : MCUState :=
  { mcu := none, request_dict := [], response_dict := [],
    last_sync_time := 0, time_sync_interval := 100, reporting := false,
    last_callback_time := 0, nextEventId := 0, buffer := [],
    serial_port := none }

/-- C6: a healthy connected link with a buffered event that an idle tick
must not consume. -/
def linkC6 : LinkState :=
  { serialFault := false, nextId := 2,
    rxEvents := [{ typeInt := T3Event.DIGITAL_INPUT_EVENT, device_time := 5,
                   local_time := none, ain_channels := [], din_byte := 1,
                   threshold_state_changed := [] }],
    rxReplies := [], drainCount := 0, syncCount := 0 }

/-- C6: a connected session with reporting disabled whose sync interval
has elapsed at `t = 30`. -/
def stC6w : MCUState :=
  { mcu := some linkC6, request_dict := [], response_dict := [],
    last_sync_time := 0, time_sync_interval := 20, reporting := false,
    last_callback_time := 0, nextEventId := 0, buffer := [],
    serial_port := some 1 }

/-- C7: a healthy connected link with empty buffers. -/
def linkC7 : LinkState :=
  { serialFault := false, nextId := 0, rxEvents := [], rxReplies := [],
    drainCount := 0, syncCount := 0 }

/-- C7: a connected session with reporting disabled, before the idle
tick at `t = 5`. -/
def stC7a : MCUState :=
  { mcu := some linkC7, request_dict := [], response_dict := [],
    last_sync_time := 0, time_sync_interval := 100, reporting := false,
    last_callback_time := 0, nextEventId := 0, buffer := [],
    serial_port := some 1 }

/-- C7: `stC7a` after the idle tick at `t = 5` (which left
`_last_callback_time` at `0`). -/
def stC7b : MCUState :=
  { stC7a with
    mcu := some { linkC7 with drainCount := 1 } }

/-- C7: a digital native event carrying a link-layer host-time stamp. -/
def evC7 : NativeEvent :=
  { typeInt := T3Event.DIGITAL_INPUT_EVENT, device_time := 1000,
    local_time := some 6, ain_channels := [], din_byte := 3,
    threshold_state_changed := [] }

/-- C7: `stC7b` after reporting was enabled and the link buffered
`evC7`, before the reporting tick at `t = 7`. -/
def stC7c : MCUState :=
  { stC7b with
    reporting := true
    mcu := some { linkC7 with drainCount := 1, rxEvents := [evC7] } }

/-- C7: the host event record the tick at `t = 7` emits for `evC7`:
its confidence interval (slot 8) is `7 - 0 = 7`, not `7 - 5`. -/
def recC7 : List Cell :=
  [Cell.num 0, Cell.num 0, Cell.num 0, Cell.num 0, Cell.num 101,
   Cell.num 1000, Cell.num 7, Cell.num 6, Cell.num 7, Cell.num 1,
   Cell.num 0, Cell.num 3]

/-- C8: the timing context of the tick translating the two events. -/
def tcC8 : TransCtx := { logged_time := 10, confidence_interval := 2 }

/-- C8: a digital native event with state byte `0b10110001 = 177`. -/
def evDigC8 : NativeEvent :=
  { typeInt := T3Event.DIGITAL_INPUT_EVENT, device_time := 800,
    local_time := some 9, ain_channels := [], din_byte := 177,
    threshold_state_changed := [] }

/-- C8: an analog native event with its eight channel samples. -/
def evAnaC8 : NativeEvent :=
  { typeInt := T3Event.ANALOG_INPUT_EVENT, device_time := 805,
    local_time := none, ain_channels := [10, 20, 30, 40, 50, 60, 70, 80],
    din_byte := 0, threshold_state_changed := [] }

/-- C9: a pending-request store not containing id `9`. -/
def rqC9 : List (Nat × ReqKind) := [(4, ReqKind.timeReq)]

/-- C9: a resolved-response store. -/
def rsC9 : List (Nat × Reply) := [(2, { id := 2, data := 1 })]

/-- C9: a link whose reply buffer holds only a stale reply (id 9,
matching no pending request of `stC9`). -/
def linkC9 : LinkState :=
  { serialFault := false, nextId := 10, rxEvents := [],
    rxReplies := [{ id := 9, data := 5 }], drainCount := 0, syncCount := 0 }

/-- C9: a connected reporting session about to drain the stale reply. -/
def stC9 : MCUState :=
  { mcu := some linkC9, request_dict := rqC9, response_dict := rsC9,
    last_sync_time := 0, time_sync_interval := 100, reporting := true,
    last_callback_time := 0, nextEventId := 0, buffer := [],
    serial_port := some 1 }

/-- C10: a session with one resolved response (id 5). -/
def stC10 : MCUState :=
  { mcu := none, request_dict := [], response_dict := [(5, { id := 5, data := 7 })],
    last_sync_time := 0, time_sync_interval := 100, reporting := false,
    last_callback_time := 0, nextEventId := 0, buffer := [],
    serial_port := none }


theorem dlookup_dinsert_self (k : Nat) (v : α) (d : List (Nat × α)) :
    dlookup k (dinsert k v d) = some v := by
  induction d with
  | nil => simp [dinsert, dlookup]
  | cons hd tl ih =>
      obtain ⟨k', v'⟩ := hd
      by_cases h : k' = k
      · simp [dinsert, dlookup, h]
      · simp [dinsert, dlookup, h, ih]

theorem derase_dinsert_of_not_mem (k : Nat) (v : α) (d : List (Nat × α))
    (h : dlookup k d = none) : derase k (dinsert k v d) = d := by
  induction d with
  | nil => simp [dinsert, derase]
  | cons hd tl ih =>
      obtain ⟨k', v'⟩ := hd
      by_cases hk : k' = k
      · simp [dlookup, hk] at h
      · simp [dlookup, hk] at h
        simp [dinsert, derase, hk, ih h]

theorem pollBody_idle (st : MCUState) (t : Time) (link : LinkState)
    (hm : st.mcu = some link) (hf : link.serialFault = false)
    (hr : st.reporting = false) :
    pollBody st t = .ok (false, drainOutcome st t link) := by
  unfold pollBody drainOutcome drainedLink
  rw [hm]
  simp only [LinkState.getSerialRx, LinkState.runTimeSync, hf, if_false, Bool.false_eq_true]
  split_ifs <;> simp [hr]

theorem pollBody_reporting (st : MCUState) (t : Time) (link : LinkState)
    (hm : st.mcu = some link) (hf : link.serialFault = false)
    (hr : st.reporting = true) :
    pollBody st t = .ok (true, pollOutcome st t link) := by
  unfold pollBody pollOutcome drainOutcome drainedLink
  rw [hm]
  simp only [LinkState.getSerialRx, LinkState.runTimeSync, LinkState.getRxEvents,
    LinkState.getRequestReplies, hf, if_false, Bool.false_eq_true]
  split_ifs <;> simp [hr]

theorem pollTick_idle (st : MCUState) (t : Time) (link : LinkState)
    (hm : st.mcu = some link) (hf : link.serialFault = false)
    (hr : st.reporting = false) :
    pollTick st t = (.success false, drainOutcome st t link) := by
  unfold pollTick
  rw [pollBody_idle st t link hm hf hr]

theorem pollTick_reporting (st : MCUState) (t : Time) (link : LinkState)
    (hm : st.mcu = some link) (hf : link.serialFault = false)
    (hr : st.reporting = true) :
    pollTick st t = (.success true, pollOutcome st t link) := by
  unfold pollTick
  rw [pollBody_reporting st t link hm hf hr]

theorem translateEvent_isSome (tc : TransCtx) (eid : Nat) (e : NativeEvent) :
    (translateEvent tc eid e).isSome = recognized e := by
  unfold translateEvent recognized
  split_ifs <;> simp_all

theorem recognized_of_translateEvent_some {tc : TransCtx} {eid : Nat}
    {e : NativeEvent} {r : List Cell} (h : translateEvent tc eid e = some r) :
    recognized e = true := by
  have := translateEvent_isSome tc eid e
  rw [h] at this
  exact this.symm

theorem translateEvent_some_of_recognized (tc : TransCtx) (eid : Nat)
    {e : NativeEvent} (h : recognized e = true) :
    ∃ r, translateEvent tc eid e = some r := by
  have := translateEvent_isSome tc eid e
  rw [h] at this
  exact Option.isSome_iff_exists.mp this

theorem translateAll_cons_some (tc : TransCtx) (eid : Nat) (e : NativeEvent)
    (r : List Cell) (l : List NativeEvent) (h : translateEvent tc eid e = some r) :
    translateAll tc eid (e :: l) = r :: translateAll tc (eid + 1) l := by
  simp [translateAll, h]

theorem translateAll_cons_none (tc : TransCtx) (eid : Nat) (e : NativeEvent)
    (l : List NativeEvent) (h : translateEvent tc eid e = none) :
    translateAll tc eid (e :: l) = translateAll tc eid l := by
  simp [translateAll, h]

theorem countRecog_cons (e : NativeEvent) (l : List NativeEvent) :
    countRecog (e :: l) = (if recognized e then 1 else 0) + countRecog l := by
  simp only [countRecog, List.filter_cons]
  split_ifs <;> simp [Nat.add_comm]

theorem translateAll_append (tc : TransCtx) (eid : Nat)
    (l₁ l₂ : List NativeEvent) :
    translateAll tc eid (l₁ ++ l₂) =
      translateAll tc eid l₁ ++ translateAll tc (eid + countRecog l₁) l₂ := by
  induction l₁ generalizing eid with
  | nil => simp [translateAll, countRecog]
  | cons e rest ih =>
      cases h : translateEvent tc eid e with
      | some r =>
          have hrec := recognized_of_translateEvent_some h
          rw [List.cons_append, translateAll_cons_some tc eid e r _ h,
            translateAll_cons_some tc eid e r _ h, ih, countRecog_cons, hrec]
          simp [Nat.add_comm, Nat.add_assoc, Nat.add_left_comm]
      | none =>
          have hrec : recognized e = false := by
            have := translateEvent_isSome tc eid e
            rw [h] at this
            exact this.symm
          rw [List.cons_append, translateAll_cons_none tc eid e _ h,
            translateAll_cons_none tc eid e _ h, ih, countRecog_cons, hrec]
          simp

theorem reconcile_skip (rq : List (Nat × ReqKind)) (rs : List (Nat × Reply))
    (reply : Reply) (rest : List Reply) (h : dlookup reply.id rq = none) :
    reconcile rq rs (reply :: rest) = reconcile rq rs rest := by
  simp [reconcile, h]

theorem reconcile_match (rq : List (Nat × ReqKind)) (rs : List (Nat × Reply))
    (reply : Reply) (rest : List Reply) (h : (dlookup reply.id rq).isSome = true) :
    reconcile rq rs (reply :: rest) =
      reconcile (derase reply.id rq) (dinsert reply.id reply rs) rest := by
  simp [reconcile, h]

theorem reconcile_unmatched (rq : List (Nat × ReqKind)) (rs : List (Nat × Reply))
    (replies : List Reply) (h : ∀ r ∈ replies, dlookup r.id rq = none) :
    reconcile rq rs replies = (rq, rs) := by
  induction replies with
  | nil => rfl
  | cons r rest ih =>
      rw [reconcile_skip rq rs r rest (h r (by simp))]
      exact ih fun x hx => h x (by simp [hx])

theorem fillFrom_length (vs : List Int) (l : List Cell) (start : Nat) :
    (fillFrom l start vs).length = l.length := by
  induction vs generalizing l start with
  | nil => rfl
  | cons v rest ih => simp [fillFrom, ih]

theorem fillFrom_getElem?_lt (vs : List Int) (l : List Cell) (start i : Nat)
    (h : i < start) : (fillFrom l start vs)[i]? = l[i]? := by
  induction vs generalizing l start with
  | nil => rfl
  | cons v rest ih =>
      rw [fillFrom, ih _ _ (by omega), List.getElem?_set_ne (by omega)]

theorem translateEvent_fields (tc : TransCtx) (eid : Nat) (e : NativeEvent)
    (r : List Cell) (h : translateEvent tc eid e = some r) :
    r[7]? = some (Cell.num (e.local_time.getD tc.logged_time)) ∧
    r[8]? = some (Cell.num tc.confidence_interval) ∧
    r[9]? = some (Cell.num (tc.logged_time - e.local_time.getD tc.logged_time)) := by
  unfold translateEvent at h
  split_ifs at h with h1 h2 h3 <;> simp at h <;> subst h <;>
    refine ⟨?_, ?_, ?_⟩ <;>
    simp [List.getElem?_set_ne, List.getElem?_set_self, fillFrom_length,
      fillFrom_getElem?_lt]

theorem translateEvent_digital (tc : TransCtx) (eid : Nat) (e : NativeEvent)
    (h : e.typeInt = T3Event.DIGITAL_INPUT_EVENT) :
    translateEvent tc eid e =
      some [Cell.num 0, Cell.num 0, Cell.num 0, Cell.num eid,
        Cell.num EventConstants.DIGITAL_INPUT, Cell.num e.device_time,
        Cell.num tc.logged_time, Cell.num (e.local_time.getD tc.logged_time),
        Cell.num tc.confidence_interval,
        Cell.num (tc.logged_time - e.local_time.getD tc.logged_time),
        Cell.num 0, Cell.num e.din_byte] := by
  unfold translateEvent
  rw [h]
  rfl

theorem translateEvent_analog_length (tc : TransCtx) (eid : Nat)
    (e : NativeEvent) (r : List Cell)
    (h : e.typeInt = T3Event.ANALOG_INPUT_EVENT)
    (hr : translateEvent tc eid e = some r) : r.length = 19 := by
  unfold translateEvent at hr
  rw [h] at hr
  simp at hr
  subst hr
  simp [fillFrom_length]

/-- C2: any exception raised inside a poll tick is caught at the tick
boundary by the `except Exception` handler and converted into the
tick-level failure return (Python `None`); `_poll` never propagates an
exception to its caller. -/
theorem C2_exceptions_caught (st : MCUState) (t : Time) :
    (∀ e, (pollTick st t).1 ≠ PollResult.propagated e) ∧
    (∀ e, pollBody st t = .error e → pollTick st t = (PollResult.failure, st)) := by
  constructor
  · intro e
    unfold pollTick
    cases h : pollBody st t with
    | ok v => simp
    | error e' => cases e' <;> simp [isCaughtException]
  · intro e h
    unfold pollTick
    rw [h]
    cases e <;> simp [isCaughtException]

/-- C2 witness: in the disconnected-but-reporting state the poll body
raises `AttributeError`, and the tick returns the failure value. -/
theorem C2_exceptions_caught_witness :
    pollTick stC2 3 = (PollResult.failure, stC2) :=
  (C2_exceptions_caught stC2 3).2 PyErr.attrError (by rfl)

/-- C5 counterexample: in a disconnected state with event reporting
enabled, the poll tick does not return a success value — the attempt to
read events from the absent link raises `AttributeError`, so the tick
returns the caught-exception failure value (Python `None`), refuting
"returns a success value regardless of whether event reporting is
enabled". -/
theorem C5_counterexample :
    (pollTick stC5 4).1 = PollResult.failure ∧
    (pollTick stC5 4).1 ≠ PollResult.success true ∧
    (pollTick stC5 4).1 ≠ PollResult.success false := by
  refine ⟨rfl, ?_, ?_⟩ <;> decide

/-- C5 (amended): a poll tick invoked while disconnected is a no-op
returning the early-exit value `False` only when event reporting is
disabled; with reporting enabled the tick fails (caught
`AttributeError`, Python `None`), leaving the state unchanged either
way. -/
theorem C5_amended_ok (st : MCUState) (t : Time) (hm : st.mcu = none) :
    (st.reporting = false → pollTick st t = (PollResult.success false, st)) ∧
    (st.reporting = true → pollTick st t = (PollResult.failure, st)) := by
  constructor
  · intro hr
    unfold pollTick pollBody
    rw [hm]
    simp [hr]
  · intro hr
    unfold pollTick pollBody
    rw [hm]
    simp [hr, hm, isCaughtException]

/-- C5 witness: the disconnected, reporting-disabled tick is a no-op
returning `False`. -/
theorem C5_amended_ok_witness :
    pollTick stC5w 4 = (PollResult.success false, stC5w) :=
  (C5_amended_ok stC5w 4 rfl).1 rfl

/-- C6: a poll tick while connected with event reporting disabled still
drains link I/O (one serial drain) and performs the scheduled resync —
advancing `_last_sync_time` to the tick time and completing one sync
round exactly when the sync interval has elapsed — appends zero host
events, and returns the early-exit value `False` (the return the spec
designates as the idle-tick success). -/
theorem C6_idle_tick (st : MCUState) (t : Time) (link : LinkState)
    (hm : st.mcu = some link) (hf : link.serialFault = false)
    (hr : st.reporting = false) :
    pollTick st t = (PollResult.success false, drainOutcome st t link) ∧
    (drainOutcome st t link).buffer = st.buffer ∧
    (drainOutcome st t link).mcu = some (drainedLink st t link) ∧
    (drainedLink st t link).drainCount = link.drainCount + 1 ∧
    (t - st.last_sync_time ≥ st.time_sync_interval →
      (drainOutcome st t link).last_sync_time = t ∧
      (drainedLink st t link).syncCount = link.syncCount + 1) ∧
    (¬ t - st.last_sync_time ≥ st.time_sync_interval →
      (drainOutcome st t link).last_sync_time = st.last_sync_time ∧
      (drainedLink st t link).syncCount = link.syncCount) := by
  refine ⟨pollTick_idle st t link hm hf hr, ?_, ?_, ?_, ?_, ?_⟩
  · unfold drainOutcome drainedLink
    split_ifs <;> rfl
  · unfold drainOutcome drainedLink
    split_ifs <;> rfl
  · unfold drainedLink
    split_ifs <;> rfl
  · intro h
    unfold drainOutcome drainedLink
    simp [h]
  · intro h
    unfold drainOutcome drainedLink
    simp [h]

/-- C6 witness: at `t = 30` with a 20-unit sync interval the idle tick
drains, resyncs, stamps `_last_sync_time = 30` and leaves the buffer
empty. -/
theorem C6_idle_tick_witness :
    pollTick stC6w 30 = (PollResult.success false, drainOutcome stC6w 30 linkC6) ∧
    (drainOutcome stC6w 30 linkC6).buffer = stC6w.buffer ∧
    (drainOutcome stC6w 30 linkC6).last_sync_time = 30 ∧
    (drainedLink stC6w 30 linkC6).syncCount = linkC6.syncCount + 1 := by
  have h := C6_idle_tick stC6w 30 linkC6 rfl rfl rfl
  exact ⟨h.1, h.2.1, (h.2.2.2.2.1 (by decide)).1, (h.2.2.2.2.1 (by decide)).2⟩

/-- C9: a reply whose id matches no pending request is discarded by the
reconciliation loop — the pending and resolved stores pass through
unchanged and no error is raised — and a poll tick whose drained replies
all fail to match leaves both dictionaries of the device state
untouched. -/
theorem C9_stale_reply_discarded :
    (∀ (rq : List (Nat × ReqKind)) (rs : List (Nat × Reply)) (Y : Nat)
        (p : Int) (rest : List Reply), dlookup Y rq = none →
      reconcile rq rs ({ id := Y, data := p } :: rest) = reconcile rq rs rest ∧
      reconcile rq rs [{ id := Y, data := p }] = (rq, rs)) ∧
    (∀ (st : MCUState) (t : Time) (link : LinkState), st.mcu = some link →
      link.serialFault = false → st.reporting = true →
      (∀ r ∈ link.rxReplies, dlookup r.id st.request_dict = none) →
      (pollTick st t).2.request_dict = st.request_dict ∧
      (pollTick st t).2.response_dict = st.response_dict) := by
  constructor
  · intro rq rs Y p rest h
    exact ⟨reconcile_skip rq rs _ rest h, reconcile_unmatched rq rs _ (by simpa using h)⟩
  · intro st t link hm hf hr hall
    rw [pollTick_reporting st t link hm hf hr]
    unfold pollOutcome
    rw [reconcile_unmatched st.request_dict st.response_dict link.rxReplies hall]
    exact ⟨rfl, rfl⟩

/-- C9 witness: the stale reply with id 9 is discarded both by the bare
reconciliation loop and by a full poll tick. -/
theorem C9_stale_reply_discarded_witness :
    reconcile rqC9 rsC9 [{ id := 9, data := 5 }] = (rqC9, rsC9) ∧
    (pollTick stC9 3).2.request_dict = stC9.request_dict ∧
    (pollTick stC9 3).2.response_dict = stC9.response_dict := by
  refine ⟨(C9_stale_reply_discarded.1 rqC9 rsC9 9 5 [] (by decide)).2, ?_, ?_⟩
  · exact (C9_stale_reply_discarded.2 stC9 3 linkC9 rfl rfl rfl (by decide)).1
  · exact (C9_stale_reply_discarded.2 stC9 3 linkC9 rfl rfl rfl (by decide)).2

/-- C10: `getRequestResponse` with a falsy request id — `None` or the
integer `0` — takes the bulk path, returning every resolved response and
clearing the store (so a response with id `0` can never be retrieved
individually: the result is never `one r`); with a truthy id that
matches no resolved response it returns `None` and leaves the state
unchanged. -/
theorem C10_falsy_rid_bulk (st : MCUState) :
    (MCU.getRequestResponse st none =
      (.many (st.response_dict.map Prod.snd), { st with response_dict := [] })) ∧
    (MCU.getRequestResponse st (some 0) =
      (.many (st.response_dict.map Prod.snd), { st with response_dict := [] })) ∧
    (∀ r, (MCU.getRequestResponse st (some 0)).1 ≠ MCU.FetchResult.one r) ∧
    (∀ n, n ≠ 0 → dlookup n st.response_dict = none →
      MCU.getRequestResponse st (some n) = (.nothing, st)) := by
  refine ⟨rfl, rfl, ?_, ?_⟩
  · intro r
    simp [MCU.getRequestResponse]
  · intro n hn h
    simp [MCU.getRequestResponse, hn, h]

/-- C10 witness: the bulk path drains the store holding the id-5
response; the truthy id 9 with no resolved response returns `None` and
changes nothing. -/
theorem C10_falsy_rid_bulk_witness :
    (MCU.getRequestResponse stC10 (some 0)).1 =
      MCU.FetchResult.many [{ id := 5, data := 7 }] ∧
    MCU.getRequestResponse stC10 (some 9) = (MCU.FetchResult.nothing, stC10) := by
  refine ⟨?_, (C10_falsy_rid_bulk stC10).2.2.2 9 (by decide) (by decide)⟩
  rw [(C10_falsy_rid_bulk stC10).2.1]
  rfl

/-- C1 counterexample: disconnecting via `setConnectionState(False)`
does not clear the stores — the pending request (id 5) and the resolved
response (id 7) from before the disconnect survive, and the old
response is still retrievable afterwards, refuting "after disconnect
... both stores are empty". -/
theorem C1_counterexample :
    MCU.setConnectionState stC1 false 50 = .ok (false, { stC1 with mcu := none }) ∧
    ({ stC1 with mcu := none } : MCUState).request_dict ≠ [] ∧
    ({ stC1 with mcu := none } : MCUState).response_dict ≠ [] ∧
    (MCU.getRequestResponse { stC1 with mcu := none } (some 7)).1 =
      MCU.FetchResult.one replyC1 := by
  refine ⟨rfl, by decide, by decide, rfl⟩

/-- C1 (amended): an explicit `resetState()` — and `_close`, which
calls it — clears both stores of every entry from before and then
records the single reset request it just issued, so the pending store
holds exactly that new entry and the resolved store is empty; a bare
`setConnectionState(False)` disconnect clears neither store (entries
survive until the next connect runs `_resetLocalState`). -/
theorem C1_amended_ok (st : MCUState) (now : Time) (link : LinkState)
    (hm : st.mcu = some link) (hf : link.serialFault = false) :
    (MCU.setConnectionState st false now = .ok (false, { st with mcu := none })) ∧
    (∃ st', MCU.resetState st now = .ok (link.nextId, st') ∧
      st'.request_dict = [(link.nextId, ReqKind.resetReq)] ∧
      st'.response_dict = []) ∧
    (∃ st'', MCU.closeDevice st now = .ok st'' ∧
      st''.request_dict = [(link.nextId, ReqKind.resetReq)] ∧
      st''.response_dict = [] ∧ st''.mcu = none) := by
  have h1 : MCU.resetState st now = .ok (link.nextId,
      { st with
        mcu := some { link with nextId := link.nextId + 1, syncCount := link.syncCount + 1 }
        request_dict := [(link.nextId, ReqKind.resetReq)]
        response_dict := ([] : List (Nat × Reply))
        last_sync_time := now }) := by
    unfold MCU.resetState MCU.resetLocalState
    rw [hm]
    simp [LinkState.newRequest, LinkState.runTimeSync, hf, dinsert]
  have h2 : MCU.closeDevice st now = .ok
      { st with
        mcu := none
        request_dict := [(link.nextId, ReqKind.resetReq)]
        response_dict := ([] : List (Nat × Reply))
        last_sync_time := now } := by
    unfold MCU.closeDevice
    rw [hm, h1]
    unfold MCU.setConnectionState
    simp [LinkState.newRequest, hf]
  have h0 : MCU.setConnectionState st false now = .ok (false, { st with mcu := none }) := by
    unfold MCU.setConnectionState
    simp [hm, LinkState.newRequest, hf]
  exact ⟨h0, ⟨_, h1, rfl, rfl⟩, ⟨_, h2, rfl, rfl, rfl⟩⟩

/-- C1 witness: the amended claim at a concrete connected session
holding a pending request and a resolved response. -/
theorem C1_amended_ok_witness :
    (MCU.setConnectionState stC1w false 50 = .ok (false, { stC1w with mcu := none })) ∧
    (∃ st', MCU.resetState stC1w 50 = .ok (linkC1.nextId, st') ∧
      st'.request_dict = [(linkC1.nextId, ReqKind.resetReq)] ∧
      st'.response_dict = []) ∧
    (∃ st'', MCU.closeDevice stC1w 50 = .ok st'' ∧
      st''.request_dict = [(linkC1.nextId, ReqKind.resetReq)] ∧
      st''.response_dict = [] ∧ st''.mcu = none) :=
  C1_amended_ok stC1w 50 linkC1 rfl rfl

/-- C3 counterexample: the link can assign a submitted command the id
`0` (here `requestTime` returns `X = 0`); after the poll tick
reconciles the replies for ids `0` and `5`, retrieving `0` does not
return that payload alone — `if rid:` treats `0` as falsy, so the call
takes the bulk path, returning both responses as a list and clearing
the whole store (the id-5 response is lost to its own requester). -/
theorem C3_counterexample :
    MCU.requestTime stC3 = .ok (0, stC3b) ∧
    pollTick stC3b 2 = (PollResult.success true, stC3c) ∧
    (MCU.getRequestResponse stC3c (some 0)).1 =
      MCU.FetchResult.many [{ id := 0, data := 11 }, { id := 5, data := 12 }] ∧
    (MCU.getRequestResponse stC3c (some 0)).1 ≠
      MCU.FetchResult.one { id := 0, data := 11 } ∧
    (MCU.getRequestResponse stC3c (some 0)).2.response_dict = [] := by
  refine ⟨rfl, rfl, rfl, by decide, rfl⟩

/-- C3 (amended): for every command id `X ≠ 0` obtained by submitting a
command while no reply with id `X` has ever been reconciled: retrieving
`X` returns `None` and changes nothing; after the reconciliation loop
moves a reply `(X, p)` into the resolved store, the first retrieval of
`X` returns exactly that reply and removes it, and a second retrieval
returns `None`.  (For `X = 0` the retrieval instead takes the bulk
path, so the response can never be retrieved individually.) -/
theorem C3_amended_ok (st₀ : MCUState) (link : LinkState) (p : Int)
    (hm : st₀.mcu = some link) (hf : link.serialFault = false)
    (hX : link.nextId ≠ 0)
    (hfresh : dlookup link.nextId st₀.response_dict = none) :
    ∃ st₁, MCU.requestTime st₀ = .ok (link.nextId, st₁) ∧
      MCU.getRequestResponse st₁ (some link.nextId) = (MCU.FetchResult.nothing, st₁) ∧
      ∃ st₂, st₂ = { st₁ with
          request_dict := (reconcile st₁.request_dict st₁.response_dict
            [{ id := link.nextId, data := p }]).1
          response_dict := (reconcile st₁.request_dict st₁.response_dict
            [{ id := link.nextId, data := p }]).2 } ∧
        (MCU.getRequestResponse st₂ (some link.nextId)).1 =
          MCU.FetchResult.one { id := link.nextId, data := p } ∧
        (MCU.getRequestResponse st₂ (some link.nextId)).2.response_dict =
          st₀.response_dict ∧
        MCU.getRequestResponse ((MCU.getRequestResponse st₂ (some link.nextId)).2)
            (some link.nextId) =
          (MCU.FetchResult.nothing, (MCU.getRequestResponse st₂ (some link.nextId)).2) := by
  have h1 : MCU.requestTime st₀ = .ok (link.nextId, { st₀ with
      mcu := some { link with nextId := link.nextId + 1 }
      request_dict := dinsert link.nextId ReqKind.timeReq st₀.request_dict }) := by
    unfold MCU.requestTime
    rw [hm]
    simp [LinkState.newRequest, hf]
  refine ⟨_, h1, ?_, ?_⟩
  · unfold MCU.getRequestResponse
    simp [hX, hfresh]
  · have hrec : reconcile (dinsert link.nextId ReqKind.timeReq st₀.request_dict)
        st₀.response_dict [{ id := link.nextId, data := p }] =
        (derase link.nextId (dinsert link.nextId ReqKind.timeReq st₀.request_dict),
         dinsert link.nextId { id := link.nextId, data := p } st₀.response_dict) := by
      rw [reconcile_match _ _ _ _ (by simp [dlookup_dinsert_self])]
      rfl
    refine ⟨_, rfl, ?_, ?_, ?_⟩
    · unfold MCU.getRequestResponse
      simp [hX, hrec, dlookup_dinsert_self]
    · unfold MCU.getRequestResponse
      simp [hX, hrec, dlookup_dinsert_self,
        derase_dinsert_of_not_mem _ _ _ hfresh]
    · unfold MCU.getRequestResponse
      simp [hX, hrec, dlookup_dinsert_self,
        derase_dinsert_of_not_mem _ _ _ hfresh, hfresh]

/-- C3 witness: the amended claim at a concrete session whose link
assigns the nonzero id `3`. -/
theorem C3_amended_ok_witness :
    ∃ st₁, MCU.requestTime stC3w = .ok (linkC3w.nextId, st₁) ∧
      MCU.getRequestResponse st₁ (some linkC3w.nextId) = (MCU.FetchResult.nothing, st₁) ∧
      ∃ st₂, st₂ = { st₁ with
          request_dict := (reconcile st₁.request_dict st₁.response_dict
            [{ id := linkC3w.nextId, data := 55 }]).1
          response_dict := (reconcile st₁.request_dict st₁.response_dict
            [{ id := linkC3w.nextId, data := 55 }]).2 } ∧
        (MCU.getRequestResponse st₂ (some linkC3w.nextId)).1 =
          MCU.FetchResult.one { id := linkC3w.nextId, data := 55 } ∧
        (MCU.getRequestResponse st₂ (some linkC3w.nextId)).2.response_dict =
          stC3w.response_dict ∧
        MCU.getRequestResponse ((MCU.getRequestResponse st₂ (some linkC3w.nextId)).2)
            (some linkC3w.nextId) =
          (MCU.FetchResult.nothing, (MCU.getRequestResponse st₂ (some linkC3w.nextId)).2) :=
  C3_amended_ok stC3w linkC3w 55 rfl rfl (by decide) rfl

/-- C4: within one poll of the link's event buffer, translation
preserves the relative order of the native events: whenever a
recognised event `e₁` precedes a recognised event `e₂` in the drained
batch, some translation of `e₁` is appended to the output buffer
strictly before some translation of `e₂` (the tick appends exactly the
in-order translations of the batch after the prior buffer contents). -/
theorem C4_order_preserved (st : MCUState) (t : Time) (link : LinkState)
    (pre mid post : List NativeEvent) (e₁ e₂ : NativeEvent)
    (hm : st.mcu = some link) (hf : link.serialFault = false)
    (hr : st.reporting = true)
    (hev : link.rxEvents = pre ++ e₁ :: (mid ++ e₂ :: post))
    (h₁ : recognized e₁ = true) (h₂ : recognized e₂ = true) :
    ∃ s₁ r₁ s₂ r₂ s₃,
      (pollTick st t).2.buffer = st.buffer ++ (s₁ ++ r₁ :: (s₂ ++ r₂ :: s₃)) ∧
      (∃ a, translateEvent
        { logged_time := t, confidence_interval := t - st.last_callback_time }
        a e₁ = some r₁) ∧
      (∃ b, translateEvent
        { logged_time := t, confidence_interval := t - st.last_callback_time }
        b e₂ = some r₂) := by
  rw [pollTick_reporting st t link hm hf hr]
  set tc : TransCtx :=
    { logged_time := t, confidence_interval := t - st.last_callback_time } with htc
  obtain ⟨r₁, hr₁⟩ :=
    translateEvent_some_of_recognized tc (st.nextEventId + countRecog pre) h₁
  obtain ⟨r₂, hr₂⟩ :=
    translateEvent_some_of_recognized tc
      (st.nextEventId + countRecog pre + 1 + countRecog mid) h₂
  refine ⟨translateAll tc st.nextEventId pre, r₁,
    translateAll tc (st.nextEventId + countRecog pre + 1) mid, r₂,
    translateAll tc (st.nextEventId + countRecog pre + 1 + countRecog mid + 1) post,
    ?_, ⟨_, hr₁⟩, ⟨_, hr₂⟩⟩
  show st.buffer ++ translateAll tc st.nextEventId link.rxEvents = _
  rw [hev, translateAll_append, translateAll_cons_some _ _ _ _ _ hr₁,
    translateAll_append, translateAll_cons_some _ _ _ _ _ hr₂]

/-- C4 witness: the digital event `evC4a` precedes the analog event
`evC4b` in the drained batch, and their translations land in the buffer
in that order. -/
theorem C4_order_preserved_witness :
    ∃ s₁ r₁ s₂ r₂ s₃,
      (pollTick stC4w 3).2.buffer = stC4w.buffer ++ (s₁ ++ r₁ :: (s₂ ++ r₂ :: s₃)) ∧
      (∃ a, translateEvent
        { logged_time := 3, confidence_interval := 3 - stC4w.last_callback_time }
        a evC4a = some r₁) ∧
      (∃ b, translateEvent
        { logged_time := 3, confidence_interval := 3 - stC4w.last_callback_time }
        b evC4b = some r₂) :=
  C4_order_preserved stC4w 3 linkC4 [] [] [] evC4a evC4b rfl rfl rfl rfl
    (by decide) (by decide)

/-- C7 counterexample: the tick at `t = 5` is an idle tick (reporting
disabled) that leaves `_last_callback_time = 0`; the next tick at
`t = 7` stamps the translated event's confidence interval (slot 8) with
`7 - 0 = 7`, not `7 - 5` — the previous poll cycle's `logged_time` was
`5`, refuting "confidence_interval equals logged_time minus the
previous poll cycle's logged_time". -/
theorem C7_counterexample :
    pollTick stC7a 5 = (PollResult.success false, stC7b) ∧
    (pollTick stC7c 7).2.buffer = [recC7] ∧
    recC7[8]? = some (Cell.num 7) ∧
    Cell.num 7 ≠ Cell.num (7 - 5) := by
  refine ⟨rfl, rfl, rfl, by decide⟩

/-- C7 (amended): every event translated in a reporting tick at time
`t` carries `host_time` (slot 7) equal to its link-assigned host-time
stamp when present and `t` otherwise, `delay` (slot 9) equal to `t`
minus that host time, and `confidence_interval` (slot 8) equal to `t`
minus `_last_callback_time` — the `logged_time` of the most recent tick
that completed the reporting path, which an idle (reporting-disabled)
tick does not update, so it is not in general the immediately previous
poll cycle's `logged_time`. -/
theorem C7_amended_ok (st : MCUState) (t : Time) (link : LinkState)
    (hm : st.mcu = some link) (hf : link.serialFault = false)
    (hr : st.reporting = true) :
    ((pollTick st t).2.buffer = st.buffer ++ translateAll
      { logged_time := t, confidence_interval := t - st.last_callback_time }
      st.nextEventId link.rxEvents) ∧
    (∀ tc eid e r, translateEvent tc eid e = some r →
      r[7]? = some (Cell.num (e.local_time.getD tc.logged_time)) ∧
      r[9]? = some (Cell.num (tc.logged_time - e.local_time.getD tc.logged_time)) ∧
      r[8]? = some (Cell.num tc.confidence_interval)) ∧
    ((pollTick st t).2.last_callback_time = t) ∧
    (∀ st' t' link', st'.mcu = some link' → link'.serialFault = false →
      st'.reporting = false →
      (pollTick st' t').2.last_callback_time = st'.last_callback_time) := by
  refine ⟨?_, ?_, ?_, ?_⟩
  · rw [pollTick_reporting st t link hm hf hr]
    rfl
  · intro tc eid e r h
    obtain ⟨ha, hb, hc⟩ := translateEvent_fields tc eid e r h
    exact ⟨ha, hc, hb⟩
  · rw [pollTick_reporting st t link hm hf hr]
    rfl
  · intro st' t' link' hm' hf' hr'
    rw [pollTick_idle st' t' link' hm' hf' hr']
    unfold drainOutcome
    split_ifs <;> rfl

/-- C7 witness: the reporting tick at `t = 7` on `stC7c` appends the
translation batch with the tick's timing context and stamps
`_last_callback_time = 7`. -/
theorem C7_amended_ok_witness :
    (pollTick stC7c 7).2.buffer = stC7c.buffer ++ translateAll
      { logged_time := 7, confidence_interval := 7 - stC7c.last_callback_time }
      stC7c.nextEventId [evC7] ∧
    (pollTick stC7c 7).2.last_callback_time = 7 := by
  have h := C7_amended_ok stC7c 7
    { linkC7 with drainCount := 1, rxEvents := [evC7] } rfl rfl rfl
  exact ⟨h.1, h.2.2.1⟩

/-- C8 counterexample: a digital native event translates to a 12-slot
record while an analog event translates to a 19-slot record — the host
event record is not a fixed-shape record with the same slots for every
variant, refuting the parenthetical of the claim (slots 12-18 are
absent from the digital record, not sentinel-filled). -/
theorem C8_counterexample :
    (translateEvent tcC8 7 evDigC8).map List.length = some 12 ∧
    (translateEvent tcC8 8 evAnaC8).map List.length = some 19 ∧
    (translateEvent tcC8 7 evDigC8).map List.length ≠
      (translateEvent tcC8 8 evAnaC8).map List.length := by
  refine ⟨rfl, rfl, by decide⟩

/-- C8 (amended): translating a native DigitalInput event with state
byte `b` yields a 12-slot record whose last slot (index 11) equals `b`
and whose type slot is `DIGITAL_INPUT`; the list is pre-filled with the
`UNDEFINED` sentinel but every one of its 12 slots is then overwritten,
so no sentinel remains; the shape is not fixed across variants — analog
events yield 19-slot records. -/
theorem C8_amended_ok (tc : TransCtx) (eid : Nat) (e : NativeEvent)
    (h : e.typeInt = T3Event.DIGITAL_INPUT_EVENT) :
    ∃ r, translateEvent tc eid e = some r ∧
      r = [Cell.num 0, Cell.num 0, Cell.num 0, Cell.num eid,
        Cell.num EventConstants.DIGITAL_INPUT, Cell.num e.device_time,
        Cell.num tc.logged_time, Cell.num (e.local_time.getD tc.logged_time),
        Cell.num tc.confidence_interval,
        Cell.num (tc.logged_time - e.local_time.getD tc.logged_time),
        Cell.num 0, Cell.num e.din_byte] ∧
      r.length = 12 ∧
      r[11]? = some (Cell.num e.din_byte) ∧
      Cell.undef ∉ r ∧
      (∀ e' r', e'.typeInt = T3Event.ANALOG_INPUT_EVENT →
        translateEvent tc eid e' = some r' → r'.length = 19) := by
  refine ⟨_, translateEvent_digital tc eid e h, rfl, rfl, rfl, ?_, ?_⟩
  · simp
  · intro e' r' h' hr'
    exact translateEvent_analog_length tc eid e' r' h' hr'

/-- C8 witness: the digital event with state byte `0b10110001 = 177`
under the concrete timing context `tcC8`. -/
theorem C8_amended_ok_witness :
    ∃ r, translateEvent tcC8 7 evDigC8 = some r ∧
      r = [Cell.num 0, Cell.num 0, Cell.num 0, Cell.num 7, Cell.num 101,
        Cell.num 800, Cell.num 10, Cell.num 9, Cell.num 2, Cell.num 1,
        Cell.num 0, Cell.num 177] ∧
      r.length = 12 ∧
      r[11]? = some (Cell.num 177) ∧
      Cell.undef ∉ r ∧
      (∀ e' r', e'.typeInt = T3Event.ANALOG_INPUT_EVENT →
        translateEvent tcC8 7 e' = some r' → r'.length = 19) :=
  C8_amended_ok tcC8 7 evDigC8 rfl
